import Mathlib

/-!
Shallow embedding of the spider-robot locomotion controller
(`src/spider_controller.py` together with `config/hardware_config.py`).

The Joint State Table (`self.servo_positions`, a Python dict from servo
names to commanded angles) is modelled as an association list; actuator
commands (`self.kit.servo[channel].angle = pos`) are collected as a trace
of `(channel, angle)` pairs; Mode notifications pushed to the OLED status
sink are collected as a trace of strings.  Concurrent joint sweeps inside
`_adjust_leg_positions` target pairwise-distinct dict keys, so the
fork-join execution is modelled as the sequential composition of the
per-joint sweeps.  Python exceptions are modelled explicitly: a function
body that can raise returns its partial state together with an optional
error string.
-/

namespace Spider

/-- `SERVO_PINS` from `config/hardware_config.py`: symbolic joint name to
PCA9685 channel index. -/
def SERVO_PINS : List (String × Nat) :=
  [("leg1_shoulder", 0), ("leg1_elbow", 1), ("leg1_foot", 2),
   ("leg2_shoulder", 3), ("leg2_elbow", 4), ("leg2_foot", 5),
   ("leg3_shoulder", 6), ("leg3_elbow", 7), ("leg3_foot", 8),
   ("leg4_shoulder", 9), ("leg4_elbow", 10), ("leg4_foot", 11)]

/-- The Joint State Table: association list from servo name to last
commanded angle (`self.servo_positions`). -/
abbrev ServoTable := List (String × Int)

/-- `table.get(key, default)` of a Python dict. -/
def tget (t : ServoTable) (k : String) (d : Int) : Int :=
  match t with
  | [] => d
  | (k', v) :: rest => if k' = k then v else tget rest k d

/-- `table[key] = value` of a Python dict: replace in place, else append. -/
def tset (t : ServoTable) (k : String) (v : Int) : ServoTable :=
  match t with
  | [] => [(k, v)]
  | (k', v') :: rest => if k' = k then (k, v) :: rest else (k', v') :: tset rest k v

/-- The initial Joint State Table written by `setup_servos` (all twelve
joints at the 90-degree neutral position). -/
def initial_servo_positions : ServoTable :=
  [("leg1_shoulder", 90), ("leg1_elbow", 90), ("leg1_foot", 90),
   ("leg2_shoulder", 90), ("leg2_elbow", 90), ("leg2_foot", 90),
   ("leg3_shoulder", 90), ("leg3_elbow", 90), ("leg3_foot", 90),
   ("leg4_shoulder", 90), ("leg4_elbow", 90), ("leg4_foot", 90)]

/-- Controller state of `SpiderController`: whether a servo controller was
constructed (`self.kit is not None`), the Joint State Table — `none` when
`setup_servos` never ran, i.e. in detached mode the attribute
`servo_positions` does not exist — and the busy flag `self.is_moving`. -/
structure Ctrl where
  kit : Bool
  servo_positions : Option ServoTable
  is_moving : Bool
deriving DecidableEq, Repr

/-- A trace of actuator-bus writes `(channel, angle)`. -/
abbrev Cmds := List (Nat × Int)

/-- The angle positions written by the smooth-movement loop of
`move_servo`: `range(current_pos, angle + step_size, step_size)` with
`step_size = ±1`, run only when `current_pos ≠ angle`. -/
def sweepCmds (current target : Int) : List Int :=
  if current < target then
    (List.range ((target - current).toNat + 1)).map (fun i : Nat => current + (i : Int))
  else if target < current then
    (List.range ((current - target).toNat + 1)).map (fun i : Nat => current - (i : Int))
  else []

/-- `move_servo(servo_name, angle)`: mock path when the kit is absent or
the name is unknown; otherwise clamp the angle to `[0,180]`, sweep from
the current table entry one degree at a time, and write the final angle
into the Joint State Table.  Its own `try/except` catches any internal
exception (such as the table attribute being missing), so `move_servo`
never raises.  Returns the new state and the trace of `set_angle`
commands issued. -/
def move_servo (c : Ctrl) (servo_name : String) (angle : Int) : Ctrl × Cmds :=
  match c.kit, SERVO_PINS.lookup servo_name with
  | false, _ => (c, [])
  | true, none => (c, [])
  | true, some channel =>
    match c.servo_positions with
    | none => (c, [])
    | some tbl =>
      let a := max 0 (min 180 angle)
      let current_pos := tget tbl servo_name 90
      let cmds := (sweepCmds current_pos a).map (fun p => (channel, p))
      ({ c with servo_positions := some (tset tbl servo_name a) }, cmds)

/-- Result of a Python code block that may raise: the state and command
trace at the point of return or of the uncaught exception, plus the
exception (as its message) when one was raised. -/
abbrev PyResult := Ctrl × Cmds × Option String

/-- Sequential composition of blocks that may raise: a raised exception
skips the continuation but keeps the state mutations made so far. -/
def pseq (r : PyResult) (f : Ctrl → PyResult) : PyResult :=
  match r.2.2 with
  | none => ((f r.1).1, r.2.1 ++ (f r.1).2.1, (f r.1).2.2)
  | some e => (r.1, r.2.1, some e)

/-- A block that cannot raise, as a `PyResult`. -/
def pok (r : Ctrl × Cmds) : PyResult := (r.1, r.2, none)

/-- `_lift_legs`: move each listed leg's foot servo to 45 degrees. -/
def lift_legs (c : Ctrl) (legs : List String) : Ctrl × Cmds :=
  match legs with
  | [] => (c, [])
  | leg :: rest =>
    let r1 := move_servo c (leg ++ "_foot") 45
    let r2 := lift_legs r1.1 rest
    (r2.1, r1.2 ++ r2.2)

/-- `_lower_legs`: move each listed leg's foot servo back to 90 degrees. -/
def lower_legs (c : Ctrl) (legs : List String) : Ctrl × Cmds :=
  match legs with
  | [] => (c, [])
  | leg :: rest =>
    let r1 := move_servo c (leg ++ "_foot") 90
    let r2 := lower_legs r1.1 rest
    (r2.1, r1.2 ++ r2.2)

/-- `_move_legs_forward`: advance each listed leg's shoulder by +20
degrees clamped to `[60,120]`.  It dereferences `self.servo_positions`
directly, so when that attribute was never created (detached mode) it
raises `AttributeError`; the exception is not caught here. -/
def move_legs_forward (c : Ctrl) (legs : List String) : PyResult :=
  match legs with
  | [] => (c, [], none)
  | leg :: rest =>
    match c.servo_positions with
    | none => (c, [], some "AttributeError: servo_positions")
    | some tbl =>
      let current := tget tbl (leg ++ "_shoulder") 90
      let new_angle := max 60 (min 120 (current + 20))
      let r1 := move_servo c (leg ++ "_shoulder") new_angle
      let r2 := move_legs_forward r1.1 rest
      (r2.1, r1.2 ++ r2.2.1, r2.2.2)

/-- `_adjust_leg_positions(positions)`: run `move_servo` for every entry
of the pose in its own thread and join them all before returning.  The
pose's keys are pairwise distinct (it is a Python dict), so the fork-join
execution is modelled as the sequential composition of the per-joint
sweeps; the call returns only once every joint's sweep has completed. -/
def adjust_leg_positions (c : Ctrl) (positions : List (String × Int)) : Ctrl × Cmds :=
  match positions with
  | [] => (c, [])
  | (servo_name, angle) :: rest =>
    let r1 := move_servo c servo_name angle
    let r2 := adjust_leg_positions r1.1 rest
    (r2.1, r1.2 ++ r2.2)

/-- The all-neutral pose of `_return_to_neutral`. -/
def neutral_positions : List (String × Int) :=
  [("leg1_shoulder", 90), ("leg1_elbow", 90), ("leg1_foot", 90),
   ("leg2_shoulder", 90), ("leg2_elbow", 90), ("leg2_foot", 90),
   ("leg3_shoulder", 90), ("leg3_elbow", 90), ("leg3_foot", 90),
   ("leg4_shoulder", 90), ("leg4_elbow", 90), ("leg4_foot", 90)]

/-- `_return_to_neutral`: apply the all-90-degree pose. -/
def return_to_neutral (c : Ctrl) : Ctrl × Cmds :=
  adjust_leg_positions c neutral_positions

/-- Outcome of one public behavior call: final controller state, actuator
commands issued, Mode notifications pushed to the status sink, console
messages surfaced at the behavior level (the rejection message of the
busy guard and the report of a caught exception), whether the call was
rejected by the busy guard, and the internal exception caught by the
behavior's `except` block, if any. -/
structure BehaviorOut where
  ctrl : Ctrl
  cmds : Cmds
  modes : List String
  logs : List String
  rejected : Bool
  caughtError : Option String
deriving DecidableEq, Repr

/-- The common wrapper shared by all five public behaviors: reject when
`is_moving` is already true (printing `rejectMsg` when the behavior has
one), otherwise set `is_moving`, push the behavior's Mode label (when an
OLED is attached), run the body under `try/except`, and in the `finally`
block clear `is_moving` and push `READY`. -/
def runBehavior (oled : Bool) (c : Ctrl) (modeLabel : String)
    (rejectMsg : Option String) (body : Ctrl → PyResult) : BehaviorOut :=
  if c.is_moving then
    { ctrl := c, cmds := [], modes := [], logs := rejectMsg.toList,
      rejected := true, caughtError := none }
  else
    let r := body { c with is_moving := true }
    { ctrl := { r.1 with is_moving := false }, cmds := r.2.1,
      modes := (if oled then [modeLabel] else []) ++ (if oled then ["READY"] else []),
      logs := (match r.2.2 with | some e => [e] | none => []),
      rejected := false, caughtError := r.2.2 }

/-- One step of the walking gait: the two diagonal phases of
`walk_forward`'s loop body. -/
def walkStep (c : Ctrl) : PyResult :=
  pseq (pok (lift_legs c ["leg1", "leg4"])) (fun c =>
  pseq (move_legs_forward c ["leg2", "leg3"]) (fun c =>
  pseq (pok (lower_legs c ["leg1", "leg4"])) (fun c =>
  pseq (pok (lift_legs c ["leg2", "leg3"])) (fun c =>
  pseq (move_legs_forward c ["leg1", "leg4"]) (fun c =>
  pok (lower_legs c ["leg2", "leg3"]))))))

/-- The `for step in range(steps)` loop of `walk_forward`. -/
def walkBody (steps : Nat) (c : Ctrl) : PyResult :=
  match steps with
  | 0 => (c, [], none)
  | n + 1 => pseq (walkStep c) (fun c' => walkBody n c')

/-- One step of a turn: drive the four shoulders to the asymmetric pose,
then return every joint to neutral. -/
def turnStep (pose : List (String × Int)) (c : Ctrl) : Ctrl × Cmds :=
  let r1 := adjust_leg_positions c pose
  let r2 := return_to_neutral r1.1
  (r2.1, r1.2 ++ r2.2)

/-- The `for step in range(steps)` loop of `turn_left` / `turn_right`. -/
def turnBody (pose : List (String × Int)) (steps : Nat) (c : Ctrl) : Ctrl × Cmds :=
  match steps with
  | 0 => (c, [])
  | n + 1 =>
    let r1 := turnStep pose c
    let r2 := turnBody pose n r1.1
    (r2.1, r1.2 ++ r2.2)

/-- `walk_forward(steps)`.  Its busy guard prints
"Already moving, command ignored". -/
def walk_forward (oled : Bool) (c : Ctrl) (steps : Nat) : BehaviorOut :=
  runBehavior oled c "WALKING" (some "Already moving, command ignored") (walkBody steps)

/-- The shoulder pose of `turn_left`. -/
def turn_left_pose : List (String × Int) :=
  [("leg1_shoulder", 70), ("leg2_shoulder", 110),
   ("leg3_shoulder", 70), ("leg4_shoulder", 110)]

/-- The shoulder pose of `turn_right`. -/
def turn_right_pose : List (String × Int) :=
  [("leg1_shoulder", 110), ("leg2_shoulder", 70),
   ("leg3_shoulder", 110), ("leg4_shoulder", 70)]

/-- `turn_left(steps)`.  Its busy guard returns silently. -/
def turn_left (oled : Bool) (c : Ctrl) (steps : Nat) : BehaviorOut :=
  runBehavior oled c "TURNING" none (fun c => pok (turnBody turn_left_pose steps c))

/-- `turn_right(steps)`.  Its busy guard returns silently. -/
def turn_right (oled : Bool) (c : Ctrl) (steps : Nat) : BehaviorOut :=
  runBehavior oled c "TURNING" none (fun c => pok (turnBody turn_right_pose steps c))

/-- The four elbow poses of `dance`. -/
def dance_moves : List (List (String × Int)) :=
  [[("leg1_elbow", 45), ("leg3_elbow", 45)],
   [("leg2_elbow", 45), ("leg4_elbow", 45)],
   [("leg1_elbow", 135), ("leg3_elbow", 135)],
   [("leg2_elbow", 135), ("leg4_elbow", 135)]]

/-- The `for move in dance_moves * 3` loop of `dance`: each move is
applied and followed by a return to neutral. -/
def danceLoop (moves : List (List (String × Int))) (c : Ctrl) : Ctrl × Cmds :=
  match moves with
  | [] => (c, [])
  | move :: rest =>
    let r1 := adjust_leg_positions c move
    let r2 := return_to_neutral r1.1
    let r3 := danceLoop rest r2.1
    (r3.1, r1.2 ++ r2.2 ++ r3.2)

/-- `dance()`.  Its busy guard returns silently. -/
def dance (oled : Bool) (c : Ctrl) : BehaviorOut :=
  runBehavior oled c "DANCING" none
    (fun c => pok (danceLoop (dance_moves ++ dance_moves ++ dance_moves) c))

/-- One iteration of `wave`'s loop: both front elbows to 45, then both to
135. -/
def waveRound (c : Ctrl) : Ctrl × Cmds :=
  let r1 := move_servo c "leg1_elbow" 45
  let r2 := move_servo r1.1 "leg2_elbow" 45
  let r3 := move_servo r2.1 "leg1_elbow" 135
  let r4 := move_servo r3.1 "leg2_elbow" 135
  (r4.1, r1.2 ++ r2.2 ++ r3.2 ++ r4.2)

/-- The body of `wave`: three rounds followed by a return to neutral. -/
def waveLoop (rounds : Nat) (c : Ctrl) : Ctrl × Cmds :=
  match rounds with
  | 0 => return_to_neutral c
  | n + 1 =>
    let r1 := waveRound c
    let r2 := waveLoop n r1.1
    (r2.1, r1.2 ++ r2.2)

/-- `wave()`.  Its busy guard returns silently. -/
def wave (oled : Bool) (c : Ctrl) : BehaviorOut :=
  runBehavior oled c "WAVING" none (fun c => pok (waveLoop 3 c))

/-- A controller constructed in detached mode: no servo kit, so
`setup_servos` never ran and the `servo_positions` attribute does not
exist. -/
def detachedCtrl : Ctrl := { kit := false, servo_positions := none, is_moving := false }

/-- A controller constructed with the servo kit attached and the table
driven to neutral by `setup_servos`. -/
def attachedCtrl : Ctrl :=
  { kit := true, servo_positions := some initial_servo_positions, is_moving := false }

/-- An attached controller whose busy flag is currently set: a behavior
is mid-execution. -/
def busyCtrl : Ctrl :=
  { kit := true, servo_positions := some initial_servo_positions, is_moving := true }

/-- One sensor read in the Range Monitor's cycle: the value produced by
`self.distance_sensor.distance` (metres), or a raised exception. -/
inductive SensorRead where
  | value (d : ℚ)
  | failure
deriving DecidableEq, Repr

/-- Outcome of one Range Monitor cycle: the centimetre value published to
the status sink (`none` when nothing was published this cycle), the sleep
this cycle ends with (seconds), and whether the cycle logged a read
failure. -/
structure CycleOut where
  published : Option ℚ
  sleepSecs : ℚ
  errorLogged : Bool
deriving DecidableEq, Repr

/-- One cycle of `start_distance_monitoring`'s loop: with a sensor
attached, read it and publish `distance_m * 100 if distance_m and
distance_m < 4 else 400`; on a raised read failure, log it and back off
for 2 s publishing nothing; without a sensor, publish the constant mock
reading 50.0.  Publication reaches the sink only when an OLED is
attached. -/
def monitorCycle (sensorPresent oled : Bool) (r : SensorRead) : CycleOut :=
  if sensorPresent then
    match r with
    | .value d =>
      let distance_cm := if d ≠ 0 ∧ d < 4 then d * 100 else 400
      { published := if oled then some distance_cm else none,
        sleepSecs := 1 / 2, errorLogged := false }
    | .failure =>
      { published := none, sleepSecs := 2, errorLogged := true }
  else
    { published := if oled then some 50 else none,
      sleepSecs := 1 / 2, errorLogged := false }

/-- The Range Monitor loop over a finite prefix of sensor reads: every
read is consumed in order, one cycle each — the loop never terminates
early. -/
def monitorRun (sensorPresent oled : Bool) (rs : List SensorRead) : List CycleOut :=
  match rs with
  | [] => []
  | r :: rest => monitorCycle sensorPresent oled r :: monitorRun sensorPresent oled rest

/-- `get_distance()`: read the sensor on demand with the same conversion
as the monitor loop; return the mock value 50.0 when no sensor is
attached or the read raises. -/
def get_distance (sensorPresent : Bool) (r : SensorRead) : ℚ :=
  if sensorPresent then
    match r with
    | .value d => if d ≠ 0 ∧ d < 4 then d * 100 else 400
    | .failure => 50
  else 50

/-! ## Helper lemmas about the Joint State Table and the sweep -/

theorem tget_tset_same (t : ServoTable) (k : String) (v d : Int) :
    tget (tset t k v) k d = v := by
  induction t with
  | nil => simp [tset, tget]
  | cons hd rest ih =>
    obtain ⟨k', v'⟩ := hd
    by_cases h : k' = k
    · simp [tset, h, tget]
    · simp [tset, h, tget, ih]

theorem tget_tset_ne (t : ServoTable) {kw kr : String} (h : kw ≠ kr) (v d : Int) :
    tget (tset t kw v) kr d = tget t kr d := by
  induction t with
  | nil =>
    simp [tset, tget, h]
  | cons hd rest ih =>
    obtain ⟨a, b⟩ := hd
    by_cases ha : a = kw
    · subst ha
      have hak : ¬ a = kr := h
      simp [tset, tget, hak]
    · by_cases hak : a = kr
      · subst hak
        simp [tset, tget, ha, Ne.symm h]
      · simp [tset, tget, ha, hak, ih]

theorem tset_tset_same (t : ServoTable) (k : String) (v w : Int) :
    tset (tset t k v) k w = tset t k w := by
  induction t with
  | nil => simp [tset]
  | cons hd rest ih =>
    obtain ⟨a, b⟩ := hd
    by_cases ha : a = k
    · simp [tset, ha]
    · simp [tset, ha, ih]

theorem tget_const (t : ServoTable) (k : String) (d : Int)
    (h : ∀ p ∈ t, p.2 = d) : tget t k d = d := by
  induction t with
  | nil => rfl
  | cons hd rest ih =>
    obtain ⟨a, b⟩ := hd
    have hb : b = d := h (a, b) (List.mem_cons_self _ _)
    by_cases ha : a = k
    · simp [tget, ha, hb]
    · simp only [tget, ha, if_false]
      exact ih (fun p hp => h p (List.mem_cons_of_mem _ hp))

theorem tget_initial (k : String) : tget initial_servo_positions k 90 = 90 :=
  tget_const _ _ _ (by decide)

theorem sweepCmds_self (a : Int) : sweepCmds a a = [] := by
  simp [sweepCmds]

theorem sweepCmds_mem_bounds {cur tgt p : Int} (hp : p ∈ sweepCmds cur tgt) :
    (cur ≤ p ∧ p ≤ tgt) ∨ (tgt ≤ p ∧ p ≤ cur) := by
  unfold sweepCmds at hp
  split at hp
  · next h =>
    obtain ⟨i, hi, rfl⟩ := List.mem_map.mp hp
    rw [List.mem_range] at hi
    left
    omega
  · split at hp
    · next h =>
      obtain ⟨i, hi, rfl⟩ := List.mem_map.mp hp
      rw [List.mem_range] at hi
      right
      omega
    · simp at hp

/-! ## Helper lemmas about `move_servo` and `adjust_leg_positions` -/

theorem move_servo_attached {name : String} {ch : Nat}
    (hch : SERVO_PINS.lookup name = some ch) (tbl : ServoTable) (m : Bool) (a : Int) :
    move_servo ⟨true, some tbl, m⟩ name a =
      (⟨true, some (tset tbl name (max 0 (min 180 a))), m⟩,
       (sweepCmds (tget tbl name 90) (max 0 (min 180 a))).map (fun p => (ch, p))) := by
  simp [move_servo, hch]

theorem move_servo_shape (tbl : ServoTable) (m : Bool) (name : String) (a : Int) :
    ∃ tbl', (move_servo ⟨true, some tbl, m⟩ name a).1 = ⟨true, some tbl', m⟩ := by
  cases hch : SERVO_PINS.lookup name with
  | none => exact ⟨tbl, by simp [move_servo, hch]⟩
  | some ch => exact ⟨_, by rw [move_servo_attached hch]⟩

theorem adjust_shape (pose : List (String × Int)) :
    ∀ (tbl : ServoTable) (m : Bool),
    ∃ tbl', (adjust_leg_positions ⟨true, some tbl, m⟩ pose).1 = ⟨true, some tbl', m⟩ := by
  induction pose with
  | nil => intro tbl m; exact ⟨tbl, rfl⟩
  | cons hd rest ih =>
    intro tbl m
    obtain ⟨k, v⟩ := hd
    obtain ⟨tbl1, h1⟩ := move_servo_shape tbl m k v
    obtain ⟨tbl', h'⟩ := ih tbl1 m
    refine ⟨tbl', ?_⟩
    simp only [adjust_leg_positions]
    rw [h1, h']

/-- Specification of `_adjust_leg_positions` on an attached controller:
when the pose's keys are pairwise distinct, name known joints and carry
in-range targets, the call returns with every pose joint's table entry
equal to its target, and with every other key's entry untouched. -/
theorem adjust_leg_positions_spec (pose : List (String × Int)) :
    ∀ (tbl : ServoTable) (m : Bool),
    (pose.map Prod.fst).Nodup →
    (∀ p ∈ pose, (SERVO_PINS.lookup p.1).isSome = true ∧ 0 ≤ p.2 ∧ p.2 ≤ 180) →
    ∃ tbl', (adjust_leg_positions ⟨true, some tbl, m⟩ pose).1 = ⟨true, some tbl', m⟩ ∧
      (∀ p ∈ pose, tget tbl' p.1 90 = p.2) ∧
      (∀ k, k ∉ pose.map Prod.fst → ∀ d : Int, tget tbl' k d = tget tbl k d) := by
  induction pose with
  | nil =>
    intro tbl m _ _
    exact ⟨tbl, rfl, by simp, fun k _ d => rfl⟩
  | cons hd rest ih =>
    intro tbl m hnodup hvalid
    obtain ⟨k, v⟩ := hd
    obtain ⟨hk, hv0, hv1⟩ := hvalid (k, v) (List.mem_cons_self _ _)
    obtain ⟨ch, hch⟩ := Option.isSome_iff_exists.mp hk
    have hclamp : max 0 (min 180 v) = v := by omega
    have hmove := move_servo_attached hch tbl m v
    rw [hclamp] at hmove
    have hnot : k ∉ rest.map Prod.fst := (List.nodup_cons.mp (by simpa using hnodup)).1
    obtain ⟨tbl', hres, hmem, hframe⟩ :=
      ih (tset tbl k v) m (List.nodup_cons.mp (by simpa using hnodup)).2
        (fun p hp => hvalid p (List.mem_cons_of_mem _ hp))
    refine ⟨tbl', ?_, ?_, ?_⟩
    · simp only [adjust_leg_positions]
      rw [hmove]
      exact hres
    · intro p hp
      rcases List.mem_cons.mp hp with hh | ht
      · subst hh
        rw [hframe k hnot 90, tget_tset_same]
      · exact hmem p ht
    · intro k' hk' d
      have hk'k : k ≠ k' := by
        intro hkk
        exact hk' (by simp [← hkk])
      have hk'rest : k' ∉ rest.map Prod.fst := by
        intro hmemr
        exact hk' (by simp [hmemr])
      rw [hframe k' hk'rest d, tget_tset_ne tbl hk'k]

/-! ## Claim theorems -/

/-- Claim C1 (amended): for every joint and every angle `a ∈ [0,180]`,
`move_servo` leaves the Joint State Table's entry for that joint exactly
equal to `a`, and the operation is idempotent — a second call with the
same `a` leaves the state unchanged and issues zero `set_angle` commands
(the sweep loop is skipped entirely when current equals target; no single
no-op command is issued). -/
theorem move_joint_sets_table_and_idempotent (name : String) (a : Int)
    (tbl : ServoTable) (m : Bool)
    (hname : (SERVO_PINS.lookup name).isSome = true) (h0 : 0 ≤ a) (h180 : a ≤ 180) :
    tget ((move_servo ⟨true, some tbl, m⟩ name a).1.servo_positions.getD []) name 90 = a ∧
    move_servo (move_servo ⟨true, some tbl, m⟩ name a).1 name a =
      ((move_servo ⟨true, some tbl, m⟩ name a).1, []) := by
  obtain ⟨ch, hch⟩ := Option.isSome_iff_exists.mp hname
  have hclamp : max 0 (min 180 a) = a := by omega
  have h1 := move_servo_attached hch tbl m a
  rw [hclamp] at h1
  have h1fst : (move_servo ⟨true, some tbl, m⟩ name a).1 = ⟨true, some (tset tbl name a), m⟩ := by
    rw [h1]
  have h2 := move_servo_attached hch (tset tbl name a) m a
  rw [hclamp] at h2
  constructor
  · rw [h1fst]
    simpa using tget_tset_same tbl name a 90
  · rw [h1fst, h2, tget_tset_same, tset_tset_same, sweepCmds_self]
    simp

/-- Concrete instantiation of the C1 theorem at joint `leg1_shoulder`
and angle 73 on the neutral table. -/
theorem move_joint_sets_table_and_idempotent_witness :
    tget ((move_servo ⟨true, some initial_servo_positions, false⟩ "leg1_shoulder"
      73).1.servo_positions.getD []) "leg1_shoulder" 90 = 73 ∧
    move_servo (move_servo ⟨true, some initial_servo_positions, false⟩ "leg1_shoulder"
      73).1 "leg1_shoulder" 73 =
      ((move_servo ⟨true, some initial_servo_positions, false⟩ "leg1_shoulder" 73).1, []) :=
  move_joint_sets_table_and_idempotent "leg1_shoulder" 73 initial_servo_positions false
    (by decide) (by decide) (by decide)

/-- Claim C1, counterexample to the claim as stated: after moving
`leg1_shoulder` to 120, a second `move_servo` call with the same target
observes current == target and issues zero `set_angle` commands — not
the claimed single no-op `set_angle` command. -/
theorem move_joint_second_call_zero_commands_cex :
    (move_servo (move_servo attachedCtrl "leg1_shoulder" 120).1 "leg1_shoulder" 120).2 = [] ∧
    (move_servo (move_servo attachedCtrl "leg1_shoulder" 120).1 "leg1_shoulder"
      120).2.length ≠ 1 := by
  decide

/-- Claim C2 (amended): every behavior request made while the busy flag
is set is rejected immediately — the state is unchanged, no actuator
command is issued, no Mode notification is pushed, nothing is queued and
nothing blocks.  `walk_forward` logs "Already moving, command ignored";
`turn_left`, `turn_right`, `dance` and `wave` reject silently, and every
behavior returns the same `None` to its caller on rejection as on
success, so the caller receives no explicit "already moving" outcome. -/
theorem busy_request_rejected (oled : Bool) (c : Ctrl) (steps : Nat)
    (h : c.is_moving = true) :
    walk_forward oled c steps =
      ⟨c, [], [], ["Already moving, command ignored"], true, none⟩ ∧
    turn_left oled c steps = ⟨c, [], [], [], true, none⟩ ∧
    turn_right oled c steps = ⟨c, [], [], [], true, none⟩ ∧
    dance oled c = ⟨c, [], [], [], true, none⟩ ∧
    wave oled c = ⟨c, [], [], [], true, none⟩ := by
  refine ⟨?_, ?_, ?_, ?_, ?_⟩ <;>
    simp [walk_forward, turn_left, turn_right, dance, wave, runBehavior, h, Option.toList]

/-- Concrete instantiation of the C2 theorem on a busy attached
controller. -/
theorem busy_request_rejected_witness :
    walk_forward true busyCtrl 3 =
      ⟨busyCtrl, [], [], ["Already moving, command ignored"], true, none⟩ ∧
    turn_left true busyCtrl 3 = ⟨busyCtrl, [], [], [], true, none⟩ ∧
    turn_right true busyCtrl 3 = ⟨busyCtrl, [], [], [], true, none⟩ ∧
    dance true busyCtrl = ⟨busyCtrl, [], [], [], true, none⟩ ∧
    wave true busyCtrl = ⟨busyCtrl, [], [], [], true, none⟩ :=
  busy_request_rejected true busyCtrl 3 rfl

/-- Claim C2, counterexample to the claim as stated: `turn_left`
requested while busy is rejected with no log message and no
caller-visible outcome at all — not the claimed explicit "already
moving" outcome. -/
theorem busy_turn_left_silent_cex :
    (turn_left true busyCtrl 2).rejected = true ∧
    (turn_left true busyCtrl 2).logs = [] ∧
    (turn_left true busyCtrl 2).modes = [] := by
  decide

/-- Claim C3 (amended): for every behavior body and every outcome —
success or an internal exception raised at any point — the shared
behavior wrapper resets the busy flag to false, pushes Mode back to
`READY` (after the behavior's own label) whenever a status sink is
attached, and never propagates the raw error: the exception is caught
and recorded.  The contained failure is only printed, never reported via
a Mode=`ERROR` notification. -/
theorem behavior_cleanup_unconditional (oled : Bool) (c : Ctrl) (label : String)
    (msg : Option String) (body : Ctrl → PyResult) (h : c.is_moving = false) :
    (runBehavior oled c label msg body).ctrl.is_moving = false ∧
    (oled = true → (runBehavior oled c label msg body).modes = [label, "READY"]) ∧
    (runBehavior oled c label msg body).rejected = false ∧
    (runBehavior oled c label msg body).caughtError =
      (body { c with is_moving := true }).2.2 := by
  refine ⟨?_, ?_, ?_, ?_⟩
  · simp [runBehavior, h]
  · intro ho
    subst ho
    simp [runBehavior, h]
  · simp [runBehavior, h]
  · simp [runBehavior, h]

/-- Concrete instantiation of the C3 theorem with a body that fails
mid-sequence: the busy flag is still cleared, Mode still returns to
`READY`, and the raised error is contained. -/
theorem behavior_cleanup_unconditional_witness :
    (runBehavior true attachedCtrl "WALKING" none
      (fun c => (c, [], some "actuator write failed"))).ctrl.is_moving = false ∧
    (true = true → (runBehavior true attachedCtrl "WALKING" none
      (fun c => (c, [], some "actuator write failed"))).modes = ["WALKING", "READY"]) ∧
    (runBehavior true attachedCtrl "WALKING" none
      (fun c => (c, [], some "actuator write failed"))).rejected = false ∧
    (runBehavior true attachedCtrl "WALKING" none
      (fun c => (c, [], some "actuator write failed"))).caughtError =
      ((fun c => (c, [], some "actuator write failed"))
        { attachedCtrl with is_moving := true } : PyResult).2.2 :=
  behavior_cleanup_unconditional true attachedCtrl "WALKING" none
    (fun c => (c, [], some "actuator write failed")) rfl

/-- Claim C3, counterexample to the claim as stated: in the one run where
a behavior body does raise (`walk_forward` in detached mode), the failure
is caught and logged but no `ERROR` Mode notification is ever pushed —
the Mode trace is exactly `WALKING` then `READY`. -/
theorem failed_behavior_no_error_mode_cex :
    (walk_forward true detachedCtrl 1).caughtError.isSome = true ∧
    (walk_forward true detachedCtrl 1).modes = ["WALKING", "READY"] ∧
    ((walk_forward true detachedCtrl 1).modes.contains "ERROR") = false := by
  decide

/-- Claim C4: `apply_pose` (`_adjust_leg_positions`) joins every
per-joint sweep before returning — modelled by sequential composition of
the disjoint per-joint sweeps — so when it returns, every joint of the
pose has completed its sweep and its Joint State Table entry equals its
target angle. -/
theorem apply_pose_barrier (pose : List (String × Int)) (tbl : ServoTable) (m : Bool)
    (hnodup : (pose.map Prod.fst).Nodup)
    (hvalid : ∀ p ∈ pose, (SERVO_PINS.lookup p.1).isSome = true ∧ 0 ≤ p.2 ∧ p.2 ≤ 180) :
    ∃ tbl', (adjust_leg_positions ⟨true, some tbl, m⟩ pose).1 = ⟨true, some tbl', m⟩ ∧
      ∀ p ∈ pose, tget tbl' p.1 90 = p.2 := by
  obtain ⟨tbl', h1, h2, _⟩ := adjust_leg_positions_spec pose tbl m hnodup hvalid
  exact ⟨tbl', h1, h2⟩

/-- Concrete instantiation of the C4 theorem on the pose
`{leg1_shoulder: 70, leg2_shoulder: 110}` from the neutral table. -/
theorem apply_pose_barrier_witness :
    ∃ tbl', (adjust_leg_positions ⟨true, some initial_servo_positions, false⟩
        [("leg1_shoulder", 70), ("leg2_shoulder", 110)]).1 = ⟨true, some tbl', false⟩ ∧
      ∀ p ∈ [("leg1_shoulder", (70 : Int)), ("leg2_shoulder", 110)],
        tget tbl' p.1 90 = p.2 :=
  apply_pose_barrier [("leg1_shoulder", 70), ("leg2_shoulder", 110)]
    initial_servo_positions false (by decide) (by decide)

/-- Claim C5: `move_servo` clamps the requested angle to `[0,180]`
before any actuator command is issued: whenever the Joint State Table
respects the angle invariant, every `set_angle` command carries an angle
in `[0,180]`, and an out-of-range request (such as 200 or -10) leaves
the joint commanded to 180 or 0 respectively. -/
theorem move_servo_clamps_before_bus (name : String) (a : Int)
    (tbl : ServoTable) (m : Bool)
    (hname : (SERVO_PINS.lookup name).isSome = true)
    (hinv : ∀ k, 0 ≤ tget tbl k 90 ∧ tget tbl k 90 ≤ 180) :
    (∀ p ∈ (move_servo ⟨true, some tbl, m⟩ name a).2, 0 ≤ p.2 ∧ p.2 ≤ 180) ∧
    (180 < a →
      tget ((move_servo ⟨true, some tbl, m⟩ name a).1.servo_positions.getD []) name 90
        = 180) ∧
    (a < 0 →
      tget ((move_servo ⟨true, some tbl, m⟩ name a).1.servo_positions.getD []) name 90
        = 0) := by
  obtain ⟨ch, hch⟩ := Option.isSome_iff_exists.mp hname
  have h1 := move_servo_attached hch tbl m a
  obtain ⟨hc0, hc180⟩ := hinv name
  refine ⟨?_, ?_, ?_⟩
  · intro p hp
    rw [h1] at hp
    obtain ⟨q, hq, rfl⟩ := List.mem_map.mp hp
    rcases sweepCmds_mem_bounds hq with ⟨hq1, hq2⟩ | ⟨hq1, hq2⟩ <;>
      constructor <;> simp <;> omega
  · intro hgt
    have hcl : max 0 (min 180 a) = 180 := by omega
    rw [h1, hcl]
    simpa using tget_tset_same tbl name 180 90
  · intro hlt
    have hcl : max 0 (min 180 a) = 0 := by omega
    rw [h1, hcl]
    simpa using tget_tset_same tbl name 0 90

/-- Concrete instantiation of the C5 theorem at the out-of-range
requests 200 and -10 on the neutral table. -/
theorem move_servo_clamps_before_bus_witness :
    ((∀ p ∈ (move_servo ⟨true, some initial_servo_positions, false⟩ "leg1_elbow" 200).2,
        0 ≤ p.2 ∧ p.2 ≤ 180) ∧
      (180 < (200 : Int) →
        tget ((move_servo ⟨true, some initial_servo_positions, false⟩ "leg1_elbow"
          200).1.servo_positions.getD []) "leg1_elbow" 90 = 180) ∧
      ((200 : Int) < 0 →
        tget ((move_servo ⟨true, some initial_servo_positions, false⟩ "leg1_elbow"
          200).1.servo_positions.getD []) "leg1_elbow" 90 = 0)) ∧
    ((∀ p ∈ (move_servo ⟨true, some initial_servo_positions, false⟩ "leg1_elbow" (-10)).2,
        0 ≤ p.2 ∧ p.2 ≤ 180) ∧
      (180 < (-10 : Int) →
        tget ((move_servo ⟨true, some initial_servo_positions, false⟩ "leg1_elbow"
          (-10)).1.servo_positions.getD []) "leg1_elbow" 90 = 180) ∧
      ((-10 : Int) < 0 →
        tget ((move_servo ⟨true, some initial_servo_positions, false⟩ "leg1_elbow"
          (-10)).1.servo_positions.getD []) "leg1_elbow" 90 = 0)) :=
  ⟨move_servo_clamps_before_bus "leg1_elbow" 200 initial_servo_positions false
      (by decide) (fun k => by rw [tget_initial]; exact ⟨by norm_num, by norm_num⟩),
    move_servo_clamps_before_bus "leg1_elbow" (-10) initial_servo_positions false
      (by decide) (fun k => by rw [tget_initial]; exact ⟨by norm_num, by norm_num⟩)⟩

/-- For every joint name listed in `SERVO_PINS`, the all-neutral pose of
`_return_to_neutral` contains that name mapped to 90. -/
theorem servo_pins_names_neutral :
    ∀ name ∈ SERVO_PINS.map Prod.fst, (name, (90 : Int)) ∈ neutral_positions := by
  decide

/-- `_return_to_neutral` on an attached controller leaves every one of
the twelve joints' table entries at 90. -/
theorem return_to_neutral_spec (tbl : ServoTable) (m : Bool) :
    ∃ tbl', (return_to_neutral ⟨true, some tbl, m⟩).1 = ⟨true, some tbl', m⟩ ∧
      ∀ name ∈ SERVO_PINS.map Prod.fst, tget tbl' name 90 = 90 := by
  obtain ⟨tbl', h1, h2, _⟩ :=
    adjust_leg_positions_spec neutral_positions tbl m (by decide) (by decide)
  exact ⟨tbl', h1, fun name hn => h2 (name, 90) (servo_pins_names_neutral name hn)⟩

/-- Every turn step ends with a return-to-neutral pose, so after at
least one step the whole Joint State Table reads 90 on all twelve
joints, whatever the starting configuration. -/
theorem turnBody_neutral (pose : List (String × Int)) :
    ∀ (n : Nat), 1 ≤ n → ∀ (tbl : ServoTable) (m : Bool),
    ∃ tbl', (turnBody pose n ⟨true, some tbl, m⟩).1 = ⟨true, some tbl', m⟩ ∧
      ∀ name ∈ SERVO_PINS.map Prod.fst, tget tbl' name 90 = 90 := by
  intro n
  induction n with
  | zero => intro h; omega
  | succ k ih =>
    intro _ tbl m
    obtain ⟨t1, h1⟩ := adjust_shape pose tbl m
    obtain ⟨t2, h2, h3⟩ := return_to_neutral_spec t1 m
    rcases Nat.eq_zero_or_pos k with hk | hk
    · subst hk
      refine ⟨t2, ?_, h3⟩
      simp only [turnBody, turnStep]
      rw [h1, h2]
    · obtain ⟨tbl', h4, h5⟩ := ih hk t2 m
      refine ⟨tbl', ?_, h5⟩
      simp only [turnBody, turnStep]
      rw [h1, h2, h4]

theorem pok_fst (r : Ctrl × Cmds) : (pok r).1 = r.1 := rfl

/-- Field-level description of `runBehavior` on a non-busy controller,
with the behavior body kept abstract. -/
theorem runBehavior_fields (oled k : Bool) (sp : Option ServoTable) (label : String)
    (msg : Option String) (body : Ctrl → PyResult) :
    (runBehavior oled ⟨k, sp, false⟩ label msg body).ctrl =
      { (body ⟨k, sp, true⟩).1 with is_moving := false } ∧
    (runBehavior oled ⟨k, sp, false⟩ label msg body).rejected = false ∧
    (runBehavior oled ⟨k, sp, false⟩ label msg body).modes =
      (if oled then [label] else []) ++ (if oled then ["READY"] else []) ∧
    (runBehavior oled ⟨k, sp, false⟩ label msg body).caughtError =
      (body ⟨k, sp, true⟩).2.2 := by
  refine ⟨?_, ?_, ?_, ?_⟩ <;> simp [runBehavior]

/-- Claim C6: after `turn_left(2)` completes from a ready controller in
any joint configuration, every one of the twelve joints' Joint State
Table entries equals 90 (neutral), because every turn step ends with a
return-to-neutral pose over all twelve channels. -/
theorem turn_left_two_steps_all_neutral (oled : Bool) (tbl : ServoTable) :
    ∃ tbl', (turn_left oled ⟨true, some tbl, false⟩ 2).ctrl = ⟨true, some tbl', false⟩ ∧
      (turn_left oled ⟨true, some tbl, false⟩ 2).rejected = false ∧
      ∀ name ∈ SERVO_PINS.map Prod.fst, tget tbl' name 90 = 90 := by
  obtain ⟨tbl', h1, h2⟩ := turnBody_neutral turn_left_pose 2 (by norm_num) tbl true
  obtain ⟨hc, hr, _, _⟩ := runBehavior_fields oled true (some tbl) "TURNING" none
    (fun c => pok (turnBody turn_left_pose 2 c))
  refine ⟨tbl', ?_, hr, h2⟩
  have hc' : (turn_left oled ⟨true, some tbl, false⟩ 2).ctrl =
      { (pok (turnBody turn_left_pose 2 ⟨true, some tbl, true⟩)).1 with is_moving := false } := hc
  rw [hc', pok_fst, h1]

/-- Claim C7: when the sensor yields an out-of-bound or invalid reading
(zero, which Python's truthiness test treats as invalid, or at least the
4 m maximum) on one cycle and a valid 0.42 m = 42.0 cm reading on the
next, the Range Monitor publishes the 400 cm maximum-range sentinel on
the first cycle and 42.0 on the second, and the sampling loop processes
both cycles without halting. -/
theorem monitor_recovers_after_invalid (d1 : ℚ) (h : d1 = 0 ∨ 4 ≤ d1) :
    monitorRun true true [SensorRead.value d1, SensorRead.value (42 / 100)] =
      [⟨some 400, 1 / 2, false⟩, ⟨some 42, 1 / 2, false⟩] := by
  have hnot : ¬ (d1 ≠ 0 ∧ d1 < 4) := by
    rcases h with h | h
    · simp [h]
    · intro hc
      linarith [hc.2]
  simp only [monitorRun, monitorCycle, if_true]
  rw [if_neg hnot, if_pos (by norm_num : (42 / 100 : ℚ) ≠ 0 ∧ (42 / 100 : ℚ) < 4)]
  norm_num

/-- Concrete instantiation of the C7 theorem with a 5 m (out-of-range)
reading followed by the valid 0.42 m reading. -/
theorem monitor_recovers_after_invalid_witness :
    monitorRun true true [SensorRead.value 5, SensorRead.value (42 / 100)] =
      [⟨some 400, 1 / 2, false⟩, ⟨some 42, 1 / 2, false⟩] :=
  monitor_recovers_after_invalid 5 (Or.inr (by norm_num))

/-- Claim C8 (amended): on a cycle whose sensor read raises, the Range
Monitor loop does not terminate: it logs the failure, publishes nothing
that cycle (the previously published value simply remains current — no
fallback value is substituted), backs off for 2 s instead of 0.5 s, and
resumes sampling with the remaining cycles. -/
theorem monitor_failure_backoff_resume (rest : List SensorRead) :
    monitorRun true true (SensorRead.failure :: rest) =
      { published := none, sleepSecs := 2, errorLogged := true } ::
        monitorRun true true rest := by
  simp [monitorRun, monitorCycle]

/-- Claim C8, counterexample to the claim as stated: the failure cycle
publishes no distance value at all, rather than substituting a safe
fallback value; only the backoff and the resumption are as claimed. -/
theorem monitor_failure_publishes_nothing_cex :
    (monitorCycle true true SensorRead.failure).published = none ∧
    (monitorCycle true true SensorRead.failure).sleepSecs = 2 ∧
    (monitorCycle true true SensorRead.failure).errorLogged = true := by
  decide

/-- Claim C9, evaluation at the failing input: in detached mode
(no servo kit constructed, so `setup_servos` never created the
`servo_positions` attribute), `walk_forward(1)` raises `AttributeError`
inside `_move_legs_forward` — the gait aborts mid-first-step with a
logged error, contradicting the claim that every behavior completes
without error — while the four other behaviors, which never dereference
`servo_positions`, do complete without error; all five still transition
Mode through their running label to `READY`. -/
theorem detached_walk_forward_attribute_error :
    (walk_forward true detachedCtrl 1).caughtError
        = some "AttributeError: servo_positions" ∧
    (walk_forward true detachedCtrl 1).modes = ["WALKING", "READY"] ∧
    (walk_forward true detachedCtrl 1).ctrl.is_moving = false ∧
    (turn_left true detachedCtrl 2).caughtError = none ∧
    (turn_left true detachedCtrl 2).modes = ["TURNING", "READY"] ∧
    (turn_right true detachedCtrl 2).caughtError = none ∧
    (turn_right true detachedCtrl 2).modes = ["TURNING", "READY"] ∧
    (dance true detachedCtrl).caughtError = none ∧
    (dance true detachedCtrl).modes = ["DANCING", "READY"] ∧
    (wave true detachedCtrl).caughtError = none ∧
    (wave true detachedCtrl).modes = ["WAVING", "READY"] := by
  decide

/-- Claim C10: a sensor reading of exactly 0.0 m is classified as
invalid by the truthiness test `if distance_m and distance_m < 4`, so
both the Range Monitor's published distance and `get_distance`'s return
value are the 400 cm maximum-range sentinel rather than 0 cm. -/
theorem zero_reading_reports_max_range :
    (monitorCycle true true (SensorRead.value 0)).published = some 400 ∧
    get_distance true (SensorRead.value 0) = 400 := by
  decide

end Spider
